import Mathlib

/-!
Verification of the `go-cli-command` command execution pipeline: the commands
registry, the run-with-recovery pipeline (`runCommand`), the dispatcher
(`Bootstrap`) and the file-based exclusive-execution lock (`FsLockableCommand`).
The Go source (package `cli`: `bootstrap.go`, `lockable.go`) is shallowly
embedded: every Go function relevant to the properties below becomes a pure
Lean function; external collaborators (the `flag` parsing facility, the
`filelock.FileLock` of `github.com/rsgcata/go-fs`, `crypto/md5`, the output
writer and the process-exit callback) are modelled as explicit parameters or
as abstract per-invocation outcomes, exactly as wide as the pipeline observes
them.
-/

namespace GoCli

/-- The payload of a Go `panic`. Go panics carry a value of arbitrary dynamic
type; the pipeline's `recover` handler performs the type assertion
`err.(error)`, whose behaviour depends only on whether the payload implements
the `error` interface. `errorValue msg` is a payload that does (with
`Error()` text `msg`); `nonError payload` is any other payload (for example a
plain string, rendered as `payload`). -/
inductive PanicPayload where
  | errorValue (msg : String)
  | nonError (payload : String)
deriving DecidableEq

/-- The behaviour of one invocation of a command's execution body
`Exec(stdWriter) error`: it returns `nil`, returns a non-nil error with text
`msg`, or panics with some payload. -/
inductive ExecOutcome where
  | ok
  | fail (msg : String)
  | panics (p : PanicPayload)
deriving DecidableEq

/-- Shallow embedding of the Go `Command` interface (bootstrap.go lines
17-24) for one invocation. `id` and `description` are `Id()` and
`Description()`. `parse` models the composite of `DefineFlags(flagSet)`
followed by `flagSet.Parse(args)` of the external `flag` facility: `none`
when parsing succeeds, `some msg` for a parse error with text `msg`.
`validateFlags` is the result of `ValidateFlags()` and `exec` the behaviour
of `Exec`. `helpSnapshot` is meaningful only for the reserved help command:
the ids of the commands its output lists (empty for ordinary commands). -/
structure Command where
  id : String
  description : String
  parse : List String → Option String
  validateFlags : Option String
  exec : ExecOutcome
  helpSnapshot : List String := []

/-- The observable result of `runCommand`: a `nil` error, a non-nil error
with text `msg`, or abnormal termination of the host process (`crashed`)
when a panic escapes the recovery handler itself. -/
inductive RunResult where
  | ok
  | errored (msg : String)
  | crashed (payload : String)
deriving DecidableEq

/-- Embedding of `runCommand` (bootstrap.go lines 45-74). The deferred
handler runs `cmdErr = err.(error)` on a recovered panic: when the payload
implements `error` the assertion succeeds and the payload becomes the
returned error; for any other payload the type assertion itself panics
inside the deferred function, the new panic propagates past `runCommand`
(which has no further recovery) and the process terminates abnormally. -/
def runCommand (cmd : Command) (args : List String) : RunResult :=
  match cmd.parse args with
  | some msg => .errored msg
  | none =>
    match cmd.validateFlags with
    | some msg => .errored msg
    | none =>
      match cmd.exec with
      | .ok => .ok
      | .fail msg => .errored msg
      | .panics (.errorValue msg) => .errored msg
      | .panics (.nonError payload) => .crashed payload

/-- Embedding of `parseCmdInput` (bootstrap.go lines 76-90): a leading
bare `"--"` token is dropped, the next token (whitespace-trimmed) is the
command name, the rest are its arguments. -/
def parseCmdInput (args : List String) : String × List String :=
  match args with
  | [] => ("", [])
  | first :: rest =>
    match (if first == "--" then rest else first :: rest) with
    | [] => ("", [])
    | name :: cmdArgs => (name.trim, cmdArgs)

/-- Embedding of `CommandsRegistry` (bootstrap.go lines 93-95): the Go
`map[string]Command` is modelled as an association list with unique keys;
`Register` inserts at a fresh key, lookups are by key. -/
structure CommandsRegistry where
  commands : List (String × Command)

/-- Embedding of `NewCommandsRegistry` (bootstrap.go lines 97-99). -/
def NewCommandsRegistry : CommandsRegistry := ⟨[]⟩

/-- Embedding of `CommandsRegistry.Register` (bootstrap.go lines 103-109).
The first component is the returned error (`none` for `nil`); the second is
the registry state after the call (Go mutates the receiver in place). -/
def CommandsRegistry.Register (registry : CommandsRegistry) (cmd : Command) :
    Option String × CommandsRegistry :=
  match registry.commands.lookup cmd.id with
  | some _ => (some ("command '" ++ cmd.id ++ "' is already registered"), registry)
  | none => (none, ⟨registry.commands ++ [(cmd.id, cmd)]⟩)

/-- Embedding of `CommandsRegistry.Commands` (bootstrap.go lines 112-118):
the values of the map (the Go copy-on-read is identity in a pure model). -/
def CommandsRegistry.Commands (registry : CommandsRegistry) : List Command :=
  registry.commands.map Prod.snd

/-- Embedding of `CommandsRegistry.Command` (bootstrap.go lines 121-124);
named `getCommand` because the Go method shares its name with the `Command`
type, which Lean does not allow inside the same namespace. -/
def CommandsRegistry.getCommand (registry : CommandsRegistry) (id : String) : Option Command :=
  registry.commands.lookup id

/-- Modelled from the spec: the `HelpCommand` type lives in a `help.go` file
that is not among the files under `src/` (only `help_test.go` and its `Bootstrap`
call site are). The spec reserves the `Id` `"help"` for it, says it lists all
other registered commands (its constructor in `Bootstrap` receives
`slices.Collect(maps.Values(availableCommands.Commands()))`), defines no
flags, and its `Exec` writes the listing and returns `nil`. The stored
`[]Command` snapshot is modelled by the ids it will list. -/
def HelpCommand (snapshot : List String) : Command :=
  { id := "help"
    description := "Displays helpful information about the available commands"
    parse := fun _ => none
    validateFlags := none
    exec := .ok
    helpSnapshot := snapshot }

/-- Embedding of the `StatusOk` constant (bootstrap.go line 14). -/
def StatusOk : Nat := 0

/-- Embedding of the `StatusErr` constant (bootstrap.go line 15). -/
def StatusErr : Nat := 1

/-- The part of `Bootstrap` (bootstrap.go lines 155-183) after the help
registration: command-name resolution, dispatch, diagnostic formatting and
the exit status handed to `processExit`. The exit code is `none` when the
process terminates abnormally (a crash inside `runCommand` propagates and
`processExit` is never reached); diagnostics are the failure lines written
to the output writer. -/
def dispatchStatus (registry : CommandsRegistry) (cmdId : String) (cmdArgs : List String) :
    Option Nat × List String :=
  match registry.getCommand cmdId with
  | none =>
      (some StatusErr,
        ["Failed to execute command " ++ cmdId ++ " with error: " ++
          ("The command " ++ cmdId ++ " does not exist\n") ++ "\n"])
  | some cmd =>
    match runCommand cmd cmdArgs with
    | .ok => (some StatusOk, [])
    | .errored msg =>
        (some StatusErr,
          ["Failed to execute command " ++ cmdId ++ " with error: " ++ msg ++ "\n"])
    | .crashed _ => (none, [])

/-- The observable outcome of one `Bootstrap` call: the registry state it
leaves behind in the caller's `*CommandsRegistry`, the code passed to
`processExit` (`none` on abnormal termination) and the diagnostics written. -/
structure BootstrapOutcome where
  registry : CommandsRegistry
  exitCode : Option Nat
  diagnostics : List String

/-- Embedding of `Bootstrap` (bootstrap.go lines 129-184). It first tries to
register a fresh `HelpCommand` holding a snapshot of the ids of the commands
currently in the registry, discarding the `Register` error (`_ =` in the
source), then resolves the command name (empty resolves to the help id) and
dispatches. The registry is received by pointer, so the mutation is the
caller's. -/
def Bootstrap (args : List String) (availableCommands : CommandsRegistry) : BootstrapOutcome :=
  let registry :=
    (availableCommands.Register
      (HelpCommand ((availableCommands.Commands).map Command.id))).2
  let parsed := parseCmdInput args
  let cmdId := if parsed.1 = "" then (HelpCommand []).id else parsed.1
  let st := dispatchStatus registry cmdId parsed.2
  { registry := registry, exitCode := st.1, diagnostics := st.2 }

/-- The outcome the external `filelock.FileLock` collaborator
(`github.com/rsgcata/go-fs`) reports when `fileLock.Lock()` is called during
this execution attempt: acquisition succeeds (`Lock()` returns `nil`), the
lock is already held by another holder (the returned error satisfies
`errors.Is(err, filelock.ErrLockHeld)`), or an infrastructure failure with
text `msg` (any other error). -/
inductive FileLockOutcome where
  | acquired
  | held
  | infraError (msg : String)
deriving DecidableEq

/-- Embedding of `FsLockableCommand` (lockable.go lines 25-32): the wrapped
command, the derived lock file path, and the behaviour of the external file
lock for this execution attempt. -/
structure FsLockableCommand where
  command : Command
  lockFilePath : String
  fileLock : FileLockOutcome

/-- Embedding of `FsLockableCommand.Lock` (lockable.go lines 106-121):
`(acquired, err)` with `err` the error text (`none` for `nil`). An
`ErrLockHeld` failure from the file lock is translated to
`(false, nil)`; any other failure is wrapped and returned. -/
def FsLockableCommand.Lock (l : FsLockableCommand) : Bool × Option String :=
  match l.fileLock with
  | .acquired => (true, none)
  | .held => (false, none)
  | .infraError msg =>
      (false, some ("failed to acquire lock for command " ++ l.command.id ++ ": " ++ msg))

/-- The result of `FsLockableCommand.Exec`: the wrapped command's `nil` or
non-nil error propagated unchanged, the distinguished `CommandLocked`
sentinel error (lockable.go line 16), a lock-acquisition error, or a panic
of the wrapped body propagating out of `Exec`. -/
inductive LockedExecResult where
  | ok
  | errored (msg : String)
  | commandLocked
  | panicked (p : PanicPayload)
deriving DecidableEq

/-- The full observable behaviour of one `FsLockableCommand.Exec` call: its
result, whether the wrapped command's execution body was invoked, and how
many times `Unlock()` ran before `Exec` returned or the panic escaped. -/
structure LockedExecTrace where
  result : LockedExecResult
  wrappedInvoked : Bool
  unlockCalls : Nat
deriving DecidableEq

/-- Embedding of `FsLockableCommand.Exec` (lockable.go lines 85-102): a
`Lock()` error is returned as-is; on contention the `CommandLocked` sentinel
is returned without touching the wrapped command; once acquired, the
deferred `Unlock()` runs exactly once whether the wrapped body returns
normally, returns an error, or panics (Go runs deferred functions during
panic unwinding), and the wrapped body's result is returned unchanged. -/
def FsLockableCommand.Exec (l : FsLockableCommand) : LockedExecTrace :=
  match l.Lock with
  | (_, some msg) => ⟨.errored msg, false, 0⟩
  | (true, none) =>
      match l.command.exec with
      | .ok => ⟨.ok, true, 1⟩
      | .fail msg => ⟨.errored msg, true, 1⟩
      | .panics p => ⟨.panicked p, true, 1⟩
  | (false, none) => ⟨.commandLocked, false, 0⟩

/-- The character class of the Go regular expression `[a-zA-Z0-9]`
(ASCII letters and digits), used by `normalizeCommandId`. -/
def isGoAlphanumeric (c : Char) : Bool := c.isAlpha || c.isDigit

/-- Replacement of every maximal run of characters outside `[a-zA-Z0-9]`
by a single `'-'`, on character lists; the `afterSep` flag records whether
the previous character belonged to such a run. -/
def collapseNonAlphanumeric : Bool → List Char → List Char
  | _, [] => []
  | afterSep, c :: rest =>
    if isGoAlphanumeric c then c :: collapseNonAlphanumeric false rest
    else if afterSep then collapseNonAlphanumeric true rest
    else '-' :: collapseNonAlphanumeric true rest

/-- Embedding of `normalizeCommandId` (lockable.go lines 18-21):
`regexp.MustCompile("[^a-zA-Z0-9]+").ReplaceAllString(id, "-")`. -/
def normalizeCommandId (id : String) : String :=
  String.mk (collapseNonAlphanumeric false id.data)

/-- The lock file name built by `NewLockableCommandWithLockName`
(lockable.go lines 50-59): `go-cli-command-<normalized>-<md5hex>.lock`.
`crypto/md5` is an external collaborator; `md5hex` stands for
`hex.EncodeToString(md5.Sum([]byte(lockName))[:])`, a pure function of the
name that always yields 32 hex characters. -/
def lockFileName (md5hex : String → String) (lockName : String) : String :=
  "go-cli-command-" ++ normalizeCommandId lockName ++ "-" ++ md5hex lockName ++ ".lock"

/-- The full lock file path: `filepath.Join(lockFileDirPath, lockFileName)`,
which for a clean directory path is directory, separator, file name. -/
def lockFilePath (md5hex : String → String) (lockFileDirPath lockName : String) : String :=
  lockFileDirPath ++ "/" ++ lockFileName md5hex lockName

/-- Embedding of `NewLockableCommandWithLockName` (lockable.go lines 44-62).
The `fileLock` argument is the behaviour of the file lock `fs.New` returns
for the derived path during this execution attempt. -/
def NewLockableCommandWithLockName (md5hex : String → String) (cmd : Command)
    (lockFileDirPath lockName : String) (fileLock : FileLockOutcome) : FsLockableCommand :=
  { command := cmd
    lockFilePath := lockFilePath md5hex lockFileDirPath lockName
    fileLock := fileLock }

/-- Embedding of `NewLockableCommand` (lockable.go lines 36-41): the lock
name defaults to the wrapped command's id. -/
def NewLockableCommand (md5hex : String → String) (cmd : Command)
    (lockFileDirPath : String) (fileLock : FileLockOutcome) : FsLockableCommand :=
  NewLockableCommandWithLockName md5hex cmd lockFileDirPath cmd.id fileLock

/-- Modelled from the spec: the flag-definition record of the Flag Contract
("name, human description, required flag, default value (as display text),
and a binder"). The concrete `FlagDefinition` type is referenced by the
repository's tests (`bootstrap_test.go`) but its defining file is not among
the files under `src/`; the binder belongs to the external flag facility and
is not part of the record here. -/
structure FlagDefinition where
  name : String
  description : String
  required : Bool
  defaultVal : String

/-- Modelled from the spec: the violation one required flag contributes when
its parsed value is absent or empty ("for every flag marked required,
confirm a value is present and non-empty after parsing"). `parsedValue`
gives each flag's post-parse string render, `""` when no value is present
(the tests read `flagSet.Lookup(name).Value.String()`). -/
def flagViolation (parsedValue : String → String) (d : FlagDefinition) : Option String :=
  if d.required && parsedValue d.name == "" then
    some ("required flag " ++ d.name ++ " is missing a value")
  else none

/-- Modelled from the spec: the validation step collects the violations of
*all* required flags, not just the first (`validateFlags` in the tests
returns the full list). -/
def validateFlags (defs : List FlagDefinition) (parsedValue : String → String) : List String :=
  defs.filterMap (flagViolation parsedValue)

/-- Joining of the collected violations into one reported failure text
("join them into one reported failure"). -/
def joinViolations : List String → String
  | [] => ""
  | [v] => v
  | v :: rest => v ++ "; " ++ joinViolations rest

/-- Modelled from the spec: the single reported validation failure — `none`
when no required flag is violated, otherwise the joined violation text. -/
def validationFailure (defs : List FlagDefinition) (parsedValue : String → String) :
    Option String :=
  match validateFlags defs parsedValue with
  | [] => none
  | v :: rest => some (joinViolations (v :: rest))

/-! Helper definitions and lemmas shared by the claim theorems. -/

/-- A minimal well-behaved command used as a concrete test input. -/
def demoCmd (id : String) : Command :=
  { id := id
    description := ""
    parse := fun _ => none
    validateFlags := none
    exec := .ok }

/-- A key absent from an association list is looked up in the appended tail. -/
theorem lookup_append_of_none {k : String} {l1 l2 : List (String × Command)}
    (h : l1.lookup k = none) : (l1 ++ l2).lookup k = l2.lookup k := by
  induction l1 with
  | nil => simp
  | cons p t ih =>
    obtain ⟨a, b⟩ := p
    cases hbeq : (k == a)
    · rw [List.cons_append]
      simp only [List.lookup, hbeq] at h ⊢
      exact ih h
    · simp only [List.lookup, hbeq] at h
      simp at h

/-- A key present in the front of an association list keeps its binding after
appending. -/
theorem lookup_append_of_some {k : String} {v : Command} {l1 l2 : List (String × Command)}
    (h : l1.lookup k = some v) : (l1 ++ l2).lookup k = some v := by
  induction l1 with
  | nil => simp [List.lookup] at h
  | cons p t ih =>
    obtain ⟨a, b⟩ := p
    cases hbeq : (k == a)
    · rw [List.cons_append]
      simp only [List.lookup, hbeq] at h ⊢
      exact ih h
    · rw [List.cons_append]
      simp only [List.lookup, hbeq] at h ⊢
      exact h

/-- The registry `Bootstrap` leaves behind is the input registry after the
(possibly failing) registration of the freshly built help command. -/
theorem Bootstrap_registry_eq (args : List String) (r : CommandsRegistry) :
    (Bootstrap args r).registry =
      (r.Register (HelpCommand ((r.Commands).map Command.id))).2 := rfl

/-- Registering at a fresh id appends the binding. -/
theorem Register_fresh_commands {r : CommandsRegistry} {cmd : Command}
    (h : r.commands.lookup cmd.id = none) :
    (r.Register cmd).2.commands = r.commands ++ [(cmd.id, cmd)] := by
  simp [CommandsRegistry.Register, h]

/-- Registering at an occupied id returns the duplicate error and leaves the
registry untouched. -/
theorem Register_duplicate_state {r : CommandsRegistry} {cmd : Command} {v : Command}
    (h : r.commands.lookup cmd.id = some v) :
    (r.Register cmd).1 = some ("command '" ++ cmd.id ++ "' is already registered") ∧
      (r.Register cmd).2 = r := by
  simp [CommandsRegistry.Register, h]

/-- Strings with equal character lists are equal. -/
theorem string_data_inj {s t : String} (h : s.data = t.data) : s = t := by
  cases s
  cases t
  exact congrArg String.mk h

/-- The substring relation on strings, expressed on character lists. -/
def substringOf (needle hay : String) : Prop :=
  ∃ before after, hay.data = before ++ needle.data ++ after

/-- Substring containment is transitive. -/
theorem substringOf_trans {a b c : String} (hab : substringOf a b) (hbc : substringOf b c) :
    substringOf a c := by
  obtain ⟨s1, t1, h1⟩ := hab
  obtain ⟨s2, t2, h2⟩ := hbc
  refine ⟨s2 ++ s1, t1 ++ t2, ?_⟩
  rw [h2, h1]
  simp [List.append_assoc]

/-- Every collected violation appears verbatim inside the joined failure
text. -/
theorem substringOf_joinViolations : ∀ {vs : List String} {v : String}, v ∈ vs →
    substringOf v (joinViolations vs)
  | [], _, h => absurd h (List.not_mem_nil _)
  | [w], v, h => by
      have hv : v = w := by simpa using h
      subst hv
      exact ⟨[], [], by simp [joinViolations]⟩
  | w :: x :: rest, v, h => by
      rcases List.mem_cons.mp h with hv | hv
      · subst hv
        refine ⟨[], ("; " ++ joinViolations (x :: rest)).data, ?_⟩
        simp [joinViolations, String.data_append, List.append_assoc]
      · obtain ⟨s, t, hst⟩ := substringOf_joinViolations hv
        refine ⟨(w ++ "; ").data ++ s, t, ?_⟩
        simp [joinViolations, String.data_append, hst, List.append_assoc]

/-- Dropping everything but the last 37 characters of `P ++ X` recovers `X`
when `X` has 37 characters. -/
theorem drop_tail_append (P X : List Char) (hX : X.length = 37) :
    (P ++ X).drop ((P ++ X).length - 37) = X := by
  have hlen : (P ++ X).length - 37 = P.length := by
    simp [List.length_append, hX]
  rw [hlen, List.drop_left]

/-- The lock file path split into everything before the digest and the
digest-plus-extension tail. -/
theorem lockFilePath_data (md5hex : String → String) (dir name : String) :
    (lockFilePath md5hex dir name).data =
      (dir.data ++ "/".data ++ "go-cli-command-".data ++ (normalizeCommandId name).data ++
        "-".data) ++ ((md5hex name).data ++ ".lock".data) := by
  simp [lockFilePath, lockFileName, String.data_append, List.append_assoc]

/-! The claim theorems. -/

/-- C1: the claim that `runCommand` recovers every panic of the execution
body into a normal error for every panic payload is violated by the code.
The recovery handler runs `cmdErr = err.(error)`; for a payload that is an
error value the panic is indeed converted into an error carrying its
message, but for any other payload (here the string `"implement me"`, the
very payload the repository's own example command `say-hello` panics with)
the type assertion itself panics inside the deferred function and the host
process terminates abnormally. -/
theorem runCommand_panic_recovery_partial :
    runCommand
      { id := "say-hello"
        description := "A basic command that will greet the user."
        parse := fun _ => none
        validateFlags := none
        exec := .panics (.nonError "implement me") } [] = .crashed "implement me" ∧
    runCommand
      { id := "test"
        description := "Test command"
        parse := fun _ => none
        validateFlags := none
        exec := .panics (.errorValue "panic error") } [] = .errored "panic error" :=
  ⟨rfl, rfl⟩

/-- C2 counterexample: dispatching against a one-command registry, then
registering a second command `beta`, then dispatching `help` again leaves
the help command listing only `alpha`: the silent `_ = Register(...)` of the
second dispatch fails on the duplicate id `"help"`, so the snapshot is the
one taken at the first dispatch and `beta`, although registered at the time
of the second dispatch, does not appear in its help output. -/
theorem Bootstrap_second_dispatch_help_stale :
    ((((Bootstrap ["help"]
          (((Bootstrap ["alpha"] ⟨[("alpha", demoCmd "alpha")]⟩).registry.Register
              (demoCmd "beta")).2)).registry.getCommand "beta").isSome = true) ∧
      (((Bootstrap ["help"]
          (((Bootstrap ["alpha"] ⟨[("alpha", demoCmd "alpha")]⟩).registry.Register
              (demoCmd "beta")).2)).registry.getCommand "help").map Command.helpSnapshot =
        some ["alpha"]) ∧
      ("beta" ∉ (["alpha"] : List String))) :=
  ⟨rfl, rfl, by decide⟩

/-- C2 (amended): the help command is registered at dispatch time only when
no command with id `"help"` is present: on such a first dispatch its
snapshot is exactly the ids of the commands registered at that moment, while
on any dispatch against a registry that already contains `"help"` the
re-registration fails silently and the registry — including the previously
stored help snapshot — is left unchanged, so commands registered between two
dispatches do not appear in the second dispatch's help output. -/
theorem Bootstrap_help_registration (args : List String) (r : CommandsRegistry) :
    (r.commands.lookup "help" = none →
      (Bootstrap args r).registry.commands.lookup "help" =
        some (HelpCommand ((r.Commands).map Command.id))) ∧
    (∀ h, r.commands.lookup "help" = some h → (Bootstrap args r).registry = r) := by
  constructor
  · intro hnone
    rw [Bootstrap_registry_eq, Register_fresh_commands hnone,
      lookup_append_of_none hnone]
    simp [List.lookup, HelpCommand]
  · intro h hsome
    rw [Bootstrap_registry_eq]
    exact (Register_duplicate_state (v := h) hsome).2

/-- C2 witness: on a fresh one-command registry the first dispatch registers
the help command with snapshot `["alpha"]`; dispatching again against the
resulting registry (which already holds `"help"`) leaves it unchanged. -/
theorem Bootstrap_help_registration_witness :
    ((Bootstrap [] ⟨[("alpha", demoCmd "alpha")]⟩).registry.commands.lookup "help" =
        some (HelpCommand ["alpha"])) ∧
    ((Bootstrap [] (Bootstrap [] ⟨[("alpha", demoCmd "alpha")]⟩).registry).registry =
        (Bootstrap [] ⟨[("alpha", demoCmd "alpha")]⟩).registry) :=
  ⟨(Bootstrap_help_registration [] ⟨[("alpha", demoCmd "alpha")]⟩).1 rfl,
    (Bootstrap_help_registration []
        (Bootstrap [] ⟨[("alpha", demoCmd "alpha")]⟩).registry).2
      (HelpCommand ["alpha"]) rfl⟩

/-- C3: for every flag set and parse result in which some required flags
have no present/non-empty value, the validation step reports one single
failure that aggregates all violations: for each such flag, the reported
failure text contains that flag's name. (The flag-validation code is
modelled from the spec; see `validateFlags` and `validationFailure`.) -/
theorem validationFailure_aggregates_all (defs : List FlagDefinition)
    (parsedValue : String → String) (d : FlagDefinition) (hmem : d ∈ defs)
    (hreq : d.required = true) (hmiss : parsedValue d.name = "") :
    ∃ failure, validationFailure defs parsedValue = some failure ∧
      substringOf d.name failure := by
  have hviol : flagViolation parsedValue d =
      some ("required flag " ++ d.name ++ " is missing a value") := by
    simp [flagViolation, hreq, hmiss]
  have hmemv : ("required flag " ++ d.name ++ " is missing a value") ∈
      validateFlags defs parsedValue :=
    List.mem_filterMap.mpr ⟨d, hmem, hviol⟩
  cases hv : validateFlags defs parsedValue with
  | nil =>
    rw [hv] at hmemv
    exact absurd hmemv (List.not_mem_nil _)
  | cons v rest =>
    refine ⟨joinViolations (v :: rest), by simp [validationFailure, hv], ?_⟩
    rw [hv] at hmemv
    refine substringOf_trans ?_ (substringOf_joinViolations hmemv)
    refine ⟨"required flag ".data, " is missing a value".data, ?_⟩
    simp [String.data_append, List.append_assoc]

/-- C3 witness: with two required flags and no values supplied, validation
reports one failure naming the first flag (and, by a second application of
the theorem, the second flag as well). -/
theorem validationFailure_aggregates_all_witness :
    (∃ failure,
        validationFailure
          [⟨"first-flag", "", true, ""⟩, ⟨"second-flag", "", true, ""⟩] (fun _ => "") =
          some failure ∧ substringOf "first-flag" failure) ∧
    (∃ failure,
        validationFailure
          [⟨"first-flag", "", true, ""⟩, ⟨"second-flag", "", true, ""⟩] (fun _ => "") =
          some failure ∧ substringOf "second-flag" failure) :=
  ⟨validationFailure_aggregates_all _ _ ⟨"first-flag", "", true, ""⟩
      (by simp) rfl rfl,
    validationFailure_aggregates_all _ _ ⟨"second-flag", "", true, ""⟩
      (by simp) rfl rfl⟩

/-- C4: `Lock()` returns `(false, nil)` exactly when the file lock reports
the already-held condition, `(true, nil)` exactly on successful acquisition,
and a non-nil error exactly when the file lock fails with anything other
than the already-held condition. -/
theorem Lock_outcome_classification (l : FsLockableCommand) :
    (l.Lock = (false, none) ↔ l.fileLock = .held) ∧
    (l.Lock = (true, none) ↔ l.fileLock = .acquired) ∧
    ((l.Lock).2.isSome = true ↔ ∃ msg, l.fileLock = .infraError msg) := by
  obtain ⟨cmd, path, fl⟩ := l
  cases fl <;> simp [FsLockableCommand.Lock]

/-- C5: when the lock-acquisition attempt reports contention (not acquired,
no error), `Exec` returns the distinguished `CommandLocked` error, the
wrapped command's execution body is never invoked, and no unlock runs. -/
theorem Exec_contention_skips_wrapped (l : FsLockableCommand)
    (h : l.fileLock = .held) :
    l.Exec = ⟨.commandLocked, false, 0⟩ := by
  obtain ⟨cmd, path, fl⟩ := l
  change fl = FileLockOutcome.held at h
  subst h
  rfl

/-- C5 witness: a concrete contended lockable command returns
`CommandLocked` without invoking the wrapped body. -/
theorem Exec_contention_skips_wrapped_witness :
    (FsLockableCommand.mk (demoCmd "job") "/tmp/job.lock" .held).Exec =
      ⟨.commandLocked, false, 0⟩ :=
  Exec_contention_skips_wrapped _ rfl

/-- C6: once the lock is acquired, `Unlock()` runs exactly once on every
exit path of `Exec` — normal return, error return, and a panic propagating
out of the wrapped execution — and on the non-panic paths the wrapped
command's result is propagated unchanged. -/
theorem Exec_acquired_releases_once (l : FsLockableCommand)
    (h : l.fileLock = .acquired) :
    (l.Exec).unlockCalls = 1 ∧ (l.Exec).wrappedInvoked = true ∧
    (l.command.exec = .ok → (l.Exec).result = .ok) ∧
    (∀ msg, l.command.exec = .fail msg → (l.Exec).result = .errored msg) ∧
    (∀ p, l.command.exec = .panics p → (l.Exec).result = .panicked p) := by
  obtain ⟨cmd, path, fl⟩ := l
  change fl = FileLockOutcome.acquired at h
  subst h
  obtain ⟨cid, cdesc, cparse, cval, cexec, csnap⟩ := cmd
  cases cexec <;>
    simp [FsLockableCommand.Exec, FsLockableCommand.Lock]

/-- C6 witness: a concrete acquired lockable command whose wrapped body
succeeds unlocks exactly once and returns the wrapped result. -/
theorem Exec_acquired_releases_once_witness :
    ((FsLockableCommand.mk (demoCmd "job2") "/tmp/job2.lock" .acquired).Exec).unlockCalls = 1 ∧
    ((FsLockableCommand.mk (demoCmd "job2") "/tmp/job2.lock" .acquired).Exec).result = .ok :=
  have h := Exec_acquired_releases_once
    (FsLockableCommand.mk (demoCmd "job2") "/tmp/job2.lock" .acquired) rfl
  ⟨h.1, h.2.2.1 rfl⟩

/-- C7: lock file identity is a deterministic function of the logical name
and the directory — equal inputs yield the identical path — and two distinct
logical names yield distinct paths whenever their content hashes differ. -/
theorem lockFilePath_deterministic_and_hash_injective
    (md5hex : String → String) (hlen : ∀ s, (md5hex s).length = 32)
    (dir name1 name2 : String) :
    (name1 = name2 → lockFilePath md5hex dir name1 = lockFilePath md5hex dir name2) ∧
    (md5hex name1 ≠ md5hex name2 →
      lockFilePath md5hex dir name1 ≠ lockFilePath md5hex dir name2) := by
  refine ⟨fun h => by rw [h], fun hne heq => hne ?_⟩
  have hdata := congrArg String.data heq
  rw [lockFilePath_data, lockFilePath_data] at hdata
  have h37 : ∀ name : String, ((md5hex name).data ++ ".lock".data).length = 37 := by
    intro name
    have h32 : (md5hex name).data.length = 32 := hlen name
    simp [List.length_append, h32]
  have key : (md5hex name1).data ++ ".lock".data =
      (md5hex name2).data ++ ".lock".data := by
    have e1 := drop_tail_append
      (dir.data ++ "/".data ++ "go-cli-command-".data ++ (normalizeCommandId name1).data ++
        "-".data)
      ((md5hex name1).data ++ ".lock".data) (h37 name1)
    have e2 := drop_tail_append
      (dir.data ++ "/".data ++ "go-cli-command-".data ++ (normalizeCommandId name2).data ++
        "-".data)
      ((md5hex name2).data ++ ".lock".data) (h37 name2)
    rw [← e1, ← e2, hdata]
  have hlens : (md5hex name1).data.length = (md5hex name2).data.length := by
    have a1 : (md5hex name1).data.length = 32 := hlen name1
    have a2 : (md5hex name2).data.length = 32 := hlen name2
    rw [a1, a2]
  exact string_data_inj (List.append_inj key hlens).1

/-- A stand-in 32-character digest used to exercise the lock-path theorem at
a concrete input. -/
def demoMd5 (s : String) : String :=
  if s = "alpha" then "0123456789abcdef0123456789abcdef"
  else "fedcba9876543210fedcba9876543210"

/-- Every stand-in digest has 32 characters. -/
theorem demoMd5_length (s : String) : (demoMd5 s).length = 32 := by
  unfold demoMd5
  split <;> rfl

/-- C7 witness: same name and directory give the same concrete path, and the
distinct names `alpha` and `beta` (with distinct digests) give distinct
concrete paths. -/
theorem lockFilePath_deterministic_witness :
    (lockFilePath demoMd5 "/tmp" "alpha" = lockFilePath demoMd5 "/tmp" "alpha") ∧
    (lockFilePath demoMd5 "/tmp" "alpha" ≠ lockFilePath demoMd5 "/tmp" "beta") :=
  ⟨(lockFilePath_deterministic_and_hash_injective demoMd5 demoMd5_length
      "/tmp" "alpha" "alpha").1 rfl,
    (lockFilePath_deterministic_and_hash_injective demoMd5 demoMd5_length
      "/tmp" "alpha" "beta").2 (by decide)⟩

/-- C8: registering a command whose id is already present fails with the
duplicate-command error and leaves the registry completely unchanged, so the
registry retains the first command registered under that id and every other
entry untouched. -/
theorem Register_duplicate_no_partial_effects (r : CommandsRegistry) (cmd : Command)
    (h : (r.commands.lookup cmd.id).isSome = true) :
    (r.Register cmd).1 = some ("command '" ++ cmd.id ++ "' is already registered") ∧
    (r.Register cmd).2 = r := by
  obtain ⟨v, hv⟩ := Option.isSome_iff_exists.mp h
  exact Register_duplicate_state hv

/-- C8 witness: re-registering under the occupied id `alpha` returns the
duplicate error and the registry still holds exactly the first command. -/
theorem Register_duplicate_no_partial_effects_witness :
    ((⟨[("alpha", demoCmd "alpha")]⟩ : CommandsRegistry).Register
        { demoCmd "alpha" with description := "second" }).1 =
      some "command 'alpha' is already registered" ∧
    ((⟨[("alpha", demoCmd "alpha")]⟩ : CommandsRegistry).Register
        { demoCmd "alpha" with description := "second" }).2 =
      (⟨[("alpha", demoCmd "alpha")]⟩ : CommandsRegistry) :=
  Register_duplicate_no_partial_effects ⟨[("alpha", demoCmd "alpha")]⟩
    { demoCmd "alpha" with description := "second" } rfl

/-- C9: `Lock()` never reports `acquired=true` together with a non-nil
error: its outcome is always exactly one of `(true, nil)`, `(false, nil)`,
or `(false, non-nil)`. -/
theorem Lock_never_acquired_with_error (l : FsLockableCommand) :
    l.Lock = (true, none) ∨ l.Lock = (false, none) ∨
      ∃ msg, l.Lock = (false, some msg) := by
  obtain ⟨cmd, path, fl⟩ := l
  cases fl with
  | acquired => exact .inl rfl
  | held => exact .inr (.inl rfl)
  | infraError msg => exact .inr (.inr ⟨_, rfl⟩)

/-- C10: `Bootstrap` mutates the caller-supplied registry: for every
argument vector and every registry not already containing the id `"help"`,
the registry left behind contains an entry with id `"help"` and still binds
every previously registered id to the same command. -/
theorem Bootstrap_adds_help_to_registry (args : List String) (r : CommandsRegistry)
    (hfresh : r.commands.lookup "help" = none) :
    ((Bootstrap args r).registry.commands.lookup "help").isSome = true ∧
    (∀ id v, r.commands.lookup id = some v →
      (Bootstrap args r).registry.commands.lookup id = some v) := by
  constructor
  · rw [Bootstrap_registry_eq, Register_fresh_commands hfresh,
      lookup_append_of_none hfresh]
    simp [List.lookup, HelpCommand]
  · intro id v hv
    rw [Bootstrap_registry_eq, Register_fresh_commands hfresh]
    exact lookup_append_of_some hv

/-- C10 witness: bootstrapping a one-command registry without `"help"`
leaves a registry containing `"help"` and still binding `"alpha"` to the
original command. -/
theorem Bootstrap_adds_help_to_registry_witness :
    (((Bootstrap [""] ⟨[("alpha", demoCmd "alpha")]⟩).registry.commands.lookup
        "help").isSome = true) ∧
    ((Bootstrap [""] ⟨[("alpha", demoCmd "alpha")]⟩).registry.commands.lookup "alpha" =
      some (demoCmd "alpha")) :=
  have h := Bootstrap_adds_help_to_registry [""] ⟨[("alpha", demoCmd "alpha")]⟩ rfl
  ⟨h.1, h.2 "alpha" (demoCmd "alpha") rfl⟩

end GoCli
